import Mathlib

/-!
# Rusty-Web C++ bundler (`src/bundler/bundler.cpp`)

A shallow embedding of the bundler.  The program is a straight-line script
that talks to the operating system; every operating-system call is modelled
as a query to an environment `Env`, and every call and every line written to
`std::cout` / `std::cerr` is appended, in program order, to a trace of
`Event`s.  The functions below are translated from the source line by line.
-/

namespace Bundler

/-- Win32 constant: the value `GetFileAttributesA` returns for a path that
cannot be queried (`(DWORD)-1`). -/
def INVALID_FILE_ATTRIBUTES : Nat := 0xFFFFFFFF

/-- Win32 constant: the directory bit of a file attribute word. -/
def FILE_ATTRIBUTE_DIRECTORY : Nat := 0x10

/-- One observable action of the process, with the result the operating
system gave.  A `cout` / `cerr` event is one `<< ... << std::endl` statement. -/
inductive Event where
  | cout (line : String)
  | cerr (line : String)
  | getcwd (result : Option String)
  | getFileAttributes (path : String) (result : Nat)
  | chdir (path : String) (result : Int)
  | putenv (envstring : String)
  | system (cmd : String) (result : Int)
  | copyFile (src dst : String) (result : Int)
  deriving DecidableEq, Repr

/-- The history of a run, oldest event first. -/
abbrev Trace := List Event

/-- Is the event a `_getcwd` call? -/
def Event.isGetcwd : Event → Bool
  | .getcwd _ => true
  | _ => false

/-- Is the event a `GetFileAttributesA` call? -/
def Event.isGetFileAttributes : Event → Bool
  | .getFileAttributes _ _ => true
  | _ => false

/-- Is the event a `_chdir` call? -/
def Event.isChdir : Event → Bool
  | .chdir _ _ => true
  | _ => false

/-- Is the event a `std::system` call? -/
def Event.isSystem : Event → Bool
  | .system _ _ => true
  | _ => false

/-- Is the event a `CopyFileA` call? -/
def Event.isCopyFile : Event → Bool
  | .copyFile _ _ _ => true
  | _ => false

/-- The results of the operating-system calls.  The first argument of every
field is the number of earlier calls of the same function in the run (the
functions below read it off the trace), so the answer to a call may differ
from the answer to an earlier call with the same arguments: the file system
changes while the build commands run.  The `int` results are only compared
with zero and printed, so they are kept as integers.
* `getcwd k`: `_getcwd`, `none` when it returns a null pointer;
* `getFileAttributes k path`: `GetFileAttributesA` (a `DWORD`, reduced modulo
  `2^32` where it is read);
* `chdir k path`: `_chdir`, `0` on success;
* `system k cmd`: `std::system`, the exit status of the command;
* `copyFile k src dst`: `CopyFileA(src, dst, FALSE)`, a `BOOL` (non-zero on
  success). -/
structure Env where
  getcwd : Nat → Option String
  getFileAttributes : Nat → String → Nat
  chdir : Nat → String → Int
  system : Nat → String → Int
  copyFile : Nat → String → String → Int

/-- `run_command` (source lines 8-16): log the command, run it once through
`std::system`, and report whether its exit status was zero. -/
def run_command (E : Env) (t : Trace) (cmd : String) : Bool × Trace :=
  let t1 := t ++ [Event.cout ("[Bundler] Running: " ++ cmd)]
  let ret := E.system (t1.countP Event.isSystem) cmd
  let t2 := t1 ++ [Event.system cmd ret]
  if ret ≠ 0 then
    (false, t2 ++ [Event.cerr ("[Bundler] Command failed with exit code " ++ toString ret)])
  else
    (true, t2)

/-- The string `get_current_dir` returns for the result `r` of `_getcwd`
(source lines 20-22): the buffer, or `""` when the call failed. -/
def dir_string (r : Option String) : String :=
  match r with
  | some buff => buff
  | none => ""

/-- `get_current_dir` (source lines 18-23): the current directory, or the
empty string when `_getcwd` fails. -/
def get_current_dir (E : Env) (t : Trace) : String × Trace :=
  let r := E.getcwd (t.countP Event.isGetcwd)
  (dir_string r, t ++ [Event.getcwd r])

/-- The attribute word that call number `k` (counted from 0) of
`GetFileAttributesA` returns for `path`: a `DWORD`, so a 32-bit value. -/
def Env.attributes (E : Env) (k : Nat) (path : String) : Nat :=
  E.getFileAttributes k path % 2 ^ 32

/-- The decision of `dir_exists` on the attribute word `ftyp` (source lines
27-29). -/
def dir_attrs (ftyp : Nat) : Bool :=
  if ftyp = INVALID_FILE_ATTRIBUTES then false
  else ftyp &&& FILE_ATTRIBUTE_DIRECTORY != 0

/-- The decision of `file_exists` on the attribute word `ftyp` (source lines
34-36). -/
def file_attrs (ftyp : Nat) : Bool :=
  if ftyp = INVALID_FILE_ATTRIBUTES then false
  else !(ftyp &&& FILE_ATTRIBUTE_DIRECTORY != 0)

/-- `dir_exists` (source lines 25-30): query the attributes of `path` and
decide on them. -/
def dir_exists (E : Env) (t : Trace) (path : String) : Bool × Trace :=
  let ftyp := E.attributes (t.countP Event.isGetFileAttributes) path
  (dir_attrs ftyp, t ++ [Event.getFileAttributes path ftyp])

/-- `file_exists` (source lines 32-37): query the attributes of `path` and
decide on them. -/
def file_exists (E : Env) (t : Trace) (path : String) : Bool × Trace :=
  let ftyp := E.attributes (t.countP Event.isGetFileAttributes) path
  (file_attrs ftyp, t ++ [Event.getFileAttributes path ftyp])

/-- The three banner lines `main` prints first (source lines 40-42). -/
def banner : Trace :=
  [Event.cout "===========================================",
   Event.cout "   Rusty-Web C++ Bundler (Portable)",
   Event.cout "==========================================="]

/-- Root location in `main` (source lines 44-56): the root path and the trace
after it.  The root is the current directory, or the parent directory when
the marker is missing here, present there and `_chdir("..")` succeeds. -/
def locate_root (E : Env) (t : Trace) : String × Trace :=
  let g0 := get_current_dir E t
  let root_dir := g0.1
  let d1 := dir_exists E g0.2 (root_dir ++ "\\rusty_web_core")
  if !d1.1 then
    let d2 := dir_exists E d1.2 (root_dir ++ "\\..\\rusty_web_core")
    if d2.1 then
      let c := E.chdir (d2.2.countP Event.isChdir) ".."
      let t3 := d2.2 ++ [Event.chdir ".." c]
      if c = 0 then
        let g1 := get_current_dir E t3
        (g1.1, g1.2 ++ [Event.cout ("Changed working directory to root: " ++ g1.1)])
      else
        (root_dir, t3)
    else
      (root_dir, d2.2)
  else
    (root_dir, d1.2)

/-- Local `target_dir` of `main` (source line 72). -/
def target_dir (root_dir : String) : String :=
  root_dir ++ "\\rusty_web_core\\target\\release"

/-- Local `rust_lib` of `main` (source line 73). -/
def rust_lib (root_dir : String) : String :=
  target_dir root_dir ++ "\\rusty_web_core.lib"

/-- Local `dll_name` of `main` (source line 82). -/
def dll_name : String := "WebView2Loader.dll"

/-- Local `src_dll` of `main` (source line 83). -/
def src_dll (root_dir : String) : String :=
  target_dir root_dir ++ "\\" ++ dll_name

/-- Local `dst_dll` of `main` (source line 84). -/
def dst_dll (root_dir : String) : String :=
  root_dir ++ "\\" ++ dll_name

/-- The library-build command (source line 68). -/
def build_cmd : String := "cd rusty_web_core && cargo build --release -j 1"

/-- Local `cl_cmd` of `main` (source lines 101-110). -/
def cl_cmd (root_dir : String) : String :=
  "cl /nologo /O2 /MT /EHsc packager\\main.cpp /Fe:Browser.exe "
    ++ ("/link /LIBPATH:\"" ++ target_dir root_dir ++ "\" rusty_web_core.lib ")
    ++ "user32.lib shell32.lib ole32.lib oleaut32.lib advapi32.lib gdi32.lib shlwapi.lib dwmapi.lib uxtheme.lib bcrypt.lib imm32.lib ws2_32.lib crypt32.lib propsys.lib ntdll.lib"

/-- The optional copy of `WebView2Loader.dll` in `main` (source lines 81-94):
the trace after it. -/
def copy_dll (E : Env) (t : Trace) (root_dir : String) : Trace :=
  let f := file_exists E t (src_dll root_dir)
  if f.1 then
    let t1 := f.2 ++ [Event.cout ("Copying " ++ dll_name ++ " to output directory...")]
    let r := E.copyFile (t1.countP Event.isCopyFile) (src_dll root_dir) (dst_dll root_dir)
    let t2 := t1 ++ [Event.copyFile (src_dll root_dir) (dst_dll root_dir) r]
    if r ≠ 0 then
      t2 ++ [Event.cout "Success copying DLL."]
    else
      t2 ++ [Event.cerr "Warning: Failed to copy DLL."]
  else
    f.2

/-- The rest of `main` once `root_dir` is fixed (source lines 58-121): the
exit status and the trace. -/
def build_from (E : Env) (t : Trace) (root_dir : String) : Int × Trace :=
  let d := dir_exists E t (root_dir ++ "\\rusty_web_core")
  if !d.1 then
    (1, d.2 ++ [Event.cerr "Error: Could not find 'rusty_web_core'. Make sure you run this from the project root or bundler directory."])
  else
    let t1 := d.2 ++ [Event.cout "\n[Step 1/3] Building Rust Core (Static Lib)...",
                      Event.putenv "RUSTFLAGS=-C target-feature=+crt-static"]
    let b := run_command E t1 build_cmd
    if !b.1 then
      (1, b.2)
    else
      let f := file_exists E b.2 (rust_lib root_dir)
      if !f.1 then
        (1, f.2 ++ [Event.cerr ("Error: " ++ rust_lib root_dir ++ " is missing. Build likely failed.")])
      else
        let t2 := copy_dll E f.2 root_dir
        let t3 := t2 ++ [Event.cout "\n[Step 3/3] Compiling C++ Launcher..."]
        let l := run_command E t3 (cl_cmd root_dir)
        if !l.1 then
          (1, l.2 ++ [Event.cerr "C++ Compilation failed."])
        else
          (0, l.2 ++ [Event.cout "\n===========================================",
                      Event.cout "Build SUCCESS!",
                      Event.cout ("Output: " ++ root_dir ++ "\\Browser.exe"),
                      Event.cout "==========================================="])

/-- The events of the optional copy stage (source lines 86-94), given the
attribute word `ad` read for the source file and the result `cp` of the copy
call: a name for the list that `copy_dll` appends. -/
def copy_events (root_dir : String) (ad : Nat) (cp : Int) : Trace :=
  Event.getFileAttributes (src_dll root_dir) ad ::
    (if file_attrs ad = true then
      [Event.cout ("Copying " ++ dll_name ++ " to output directory..."),
       Event.copyFile (src_dll root_dir) (dst_dll root_dir) cp,
       if cp = 0 then Event.cerr "Warning: Failed to copy DLL."
       else Event.cout "Success copying DLL."]
     else [])

/-- `main` (source lines 39-122): the exit status and the trace of the run. -/
def main (E : Env) : Int × Trace :=
  let r := locate_root E banner
  build_from E r.2 r.1

/-- The directory `main` starts in, as `get_current_dir` reports it at source
line 44. -/
def start_dir (E : Env) : String :=
  (get_current_dir E banner).1

/-- The root path `main` works with from source line 58 on. -/
def final_root (E : Env) : String :=
  (locate_root E banner).1

/-- The number of attribute queries made during root location (one or two),
hence the call number of the query at source line 58. -/
def root_queries (E : Env) : Nat :=
  (locate_root E banner).2.countP Event.isGetFileAttributes

/-- What the marker check at source line 58 finds: `dir_exists` of
`<root>\rusty_web_core`. -/
def marker_found (E : Env) : Bool :=
  (dir_exists E (locate_root E banner).2 (final_root E ++ "\\rusty_web_core")).1

/-- The exit status of the library-build command, the first `std::system`
call (source line 68). -/
def build_status (E : Env) : Int :=
  E.system 0 build_cmd

/-- What the artifact check at source line 75 finds: the decision of
`file_exists` on the attributes of `rust_lib`, the query that follows the
marker check. -/
def artifact_found (E : Env) : Bool :=
  file_attrs (E.attributes (root_queries E + 1) (rust_lib (final_root E)))

/-- What the check of the optional dependency at source line 86 finds. -/
def dll_found (E : Env) : Bool :=
  file_attrs (E.attributes (root_queries E + 2) (src_dll (final_root E)))

/-- The result of the `CopyFileA` call at source line 89, the only copy call. -/
def copy_result (E : Env) : Int :=
  E.copyFile 0 (src_dll (final_root E)) (dst_dll (final_root E))

/-- The exit status of the compile/link command, the second `std::system`
call (source line 112). -/
def link_status (E : Env) : Int :=
  E.system 1 (cl_cmd (final_root E))

/-- An environment without the marker directory: every attribute query
fails, every other call succeeds. -/
def env_no_marker : Env where
  getcwd := fun _ => some "C:\\work"
  getFileAttributes := fun _ _ => 0xFFFFFFFF
  chdir := fun _ _ => 0
  system := fun _ _ => 0
  copyFile := fun _ _ _ => 1

/-- An environment started in the `bundler` subdirectory: the marker
directory exists only under the parent, and every call succeeds. -/
def env_in_bundler : Env where
  getcwd := fun k => if k = 0 then some "C:\\work\\bundler" else some "C:\\work"
  getFileAttributes := fun _ path =>
    if path = "C:\\work\\bundler\\..\\rusty_web_core" ∨ path = "C:\\work\\rusty_web_core" then 0x10
    else if path = "C:\\work\\bundler\\rusty_web_core" then 0xFFFFFFFF
    else 0x20
  chdir := fun _ _ => 0
  system := fun _ _ => 0
  copyFile := fun _ _ _ => 1

/-- The environment `env_in_bundler`, except that `_chdir("..")` fails. -/
def env_chdir_fails : Env :=
  { env_in_bundler with chdir := fun _ _ => -1 }

/-- An environment started in the project root `C:\work`: the marker directory
and the built library exist, the optional dependency does not, and both
commands succeed. -/
def env_at_root : Env where
  getcwd := fun _ => some "C:\\work"
  getFileAttributes := fun _ path =>
    if path = "C:\\work\\rusty_web_core" then 0x10
    else if path = "C:\\work\\rusty_web_core\\target\\release\\rusty_web_core.lib" then 0x20
    else 0xFFFFFFFF
  chdir := fun _ _ => 0
  system := fun _ _ => 0
  copyFile := fun _ _ _ => 1

/-- The environment `env_at_root` with a build command that exits 0 without
writing the library. -/
def env_build_noop : Env :=
  { env_at_root with
    getFileAttributes := fun _ path =>
      if path = "C:\\work\\rusty_web_core" then 0x10 else 0xFFFFFFFF }

/-- The environment `env_at_root` with the optional dependency present in the
release directory and a copy call that fails. -/
def env_copy_fails : Env :=
  { env_at_root with
    getFileAttributes := fun k path =>
      if path = "C:\\work\\rusty_web_core\\target\\release\\WebView2Loader.dll" then 0x20
      else env_at_root.getFileAttributes k path
    copyFile := fun _ _ _ => 0 }

/-- The environment `env_at_root` with a library-build command that exits
with status 2. -/
def env_build_fails : Env :=
  { env_at_root with system := fun _ _ => 2 }

/-- The environment `env_at_root` with a compile/link command that exits with
status 2 (the build command, the first call, succeeds). -/
def env_link_fails : Env :=
  { env_at_root with system := fun k _ => if k = 0 then 0 else 2 }

/-- The message of the failed marker check (source lines 59-60). -/
def msg_marker : String :=
  "Error: Could not find 'rusty_web_core'. Make sure you run this from the project root or bundler directory."

/-- The message `run_command` writes for the exit status `ret` (source line 12). -/
def msg_command (ret : Int) : String :=
  "[Bundler] Command failed with exit code " ++ toString ret

/-- The message of the failed artifact check for the path `lib` (source line 76). -/
def msg_artifact (lib : String) : String :=
  "Error: " ++ lib ++ " is missing. Build likely failed."

/-- The message of the failed compile/link step (source line 113). -/
def msg_compile : String := "C++ Compilation failed."

/-- The required steps of `main` that can end the run with status 1. -/
inductive Stage where
  | marker
  | build
  | artifact
  | link
  deriving DecidableEq, Repr

/-- The step at which `main` gives up (the `return 1` at source line 62, 69,
78 or 114), or `none` when it reaches `return 0`. -/
def failed_stage (E : Env) : Option Stage :=
  if marker_found E = false then some Stage.marker
  else if build_status E ≠ 0 then some Stage.build
  else if artifact_found E = false then some Stage.artifact
  else if link_status E ≠ 0 then some Stage.link
  else none

/-- The lines written to `std::cerr`, in order. -/
def cerr_lines : Trace → List String
  | [] => []
  | Event.cerr s :: t => s :: cerr_lines t
  | _ :: t => cerr_lines t

/-! ## Auxiliary lemmas: the operations and the run of `main` -/

theorem run_command_fst (E : Env) (t : Trace) (cmd : String) :
    (run_command E t cmd).1 = decide (E.system (t.countP Event.isSystem) cmd = 0) := by
  unfold run_command
  by_cases h : E.system (t.countP Event.isSystem) cmd = 0 <;>
    simp [List.countP_append, List.countP_cons, Event.isSystem, h]

theorem run_command_snd (E : Env) (t : Trace) (cmd : String) :
    (run_command E t cmd).2 =
      t ++ [Event.cout ("[Bundler] Running: " ++ cmd),
            Event.system cmd (E.system (t.countP Event.isSystem) cmd)] ++
        (if E.system (t.countP Event.isSystem) cmd = 0 then []
         else [Event.cerr ("[Bundler] Command failed with exit code " ++
                toString (E.system (t.countP Event.isSystem) cmd))]) := by
  unfold run_command
  by_cases h : E.system (t.countP Event.isSystem) cmd = 0 <;>
    simp [List.countP_append, List.countP_cons, Event.isSystem, h]

theorem copy_dll_eq (E : Env) (t : Trace) (root_dir : String) :
    copy_dll E t root_dir =
      t ++ [Event.getFileAttributes (src_dll root_dir)
              (E.attributes (t.countP Event.isGetFileAttributes) (src_dll root_dir))] ++
        (if file_attrs (E.attributes (t.countP Event.isGetFileAttributes) (src_dll root_dir)) = true then
          [Event.cout ("Copying " ++ dll_name ++ " to output directory..."),
           Event.copyFile (src_dll root_dir) (dst_dll root_dir)
             (E.copyFile (t.countP Event.isCopyFile) (src_dll root_dir) (dst_dll root_dir)),
           if E.copyFile (t.countP Event.isCopyFile) (src_dll root_dir) (dst_dll root_dir) = 0 then
             Event.cerr "Warning: Failed to copy DLL."
           else Event.cout "Success copying DLL."]
         else []) := by
  unfold copy_dll file_exists
  by_cases h : file_attrs (E.attributes (t.countP Event.isGetFileAttributes) (src_dll root_dir)) = true
  · by_cases hc : E.copyFile (t.countP Event.isCopyFile) (src_dll root_dir) (dst_dll root_dir) = 0 <;>
      simp [List.countP_append, List.countP_cons, Event.isCopyFile, h, hc]
  · simp [h]

/-- The five ways through the part of `main` after root location, with the
call numbers made explicit. -/
theorem build_from_eq (E : Env) (t : Trace) (root : String) :
    build_from E t root =
      (if dir_attrs (E.attributes (t.countP Event.isGetFileAttributes) (root ++ "\\rusty_web_core")) = false then
        (1, t ++ [Event.getFileAttributes (root ++ "\\rusty_web_core")
                    (E.attributes (t.countP Event.isGetFileAttributes) (root ++ "\\rusty_web_core")),
                  Event.cerr "Error: Could not find 'rusty_web_core'. Make sure you run this from the project root or bundler directory."])
      else if E.system (t.countP Event.isSystem) build_cmd ≠ 0 then
        (1, t ++ [Event.getFileAttributes (root ++ "\\rusty_web_core")
                    (E.attributes (t.countP Event.isGetFileAttributes) (root ++ "\\rusty_web_core")),
                  Event.cout "\n[Step 1/3] Building Rust Core (Static Lib)...",
                  Event.putenv "RUSTFLAGS=-C target-feature=+crt-static",
                  Event.cout ("[Bundler] Running: " ++ build_cmd),
                  Event.system build_cmd (E.system (t.countP Event.isSystem) build_cmd),
                  Event.cerr ("[Bundler] Command failed with exit code " ++
                    toString (E.system (t.countP Event.isSystem) build_cmd))])
      else if file_attrs (E.attributes (t.countP Event.isGetFileAttributes + 1) (rust_lib root)) = false then
        (1, t ++ [Event.getFileAttributes (root ++ "\\rusty_web_core")
                    (E.attributes (t.countP Event.isGetFileAttributes) (root ++ "\\rusty_web_core")),
                  Event.cout "\n[Step 1/3] Building Rust Core (Static Lib)...",
                  Event.putenv "RUSTFLAGS=-C target-feature=+crt-static",
                  Event.cout ("[Bundler] Running: " ++ build_cmd),
                  Event.system build_cmd 0,
                  Event.getFileAttributes (rust_lib root)
                    (E.attributes (t.countP Event.isGetFileAttributes + 1) (rust_lib root)),
                  Event.cerr ("Error: " ++ rust_lib root ++ " is missing. Build likely failed.")])
      else
        (if E.system (t.countP Event.isSystem + 1) (cl_cmd root) ≠ 0 then 1 else 0,
         t ++ [Event.getFileAttributes (root ++ "\\rusty_web_core")
                    (E.attributes (t.countP Event.isGetFileAttributes) (root ++ "\\rusty_web_core")),
                  Event.cout "\n[Step 1/3] Building Rust Core (Static Lib)...",
                  Event.putenv "RUSTFLAGS=-C target-feature=+crt-static",
                  Event.cout ("[Bundler] Running: " ++ build_cmd),
                  Event.system build_cmd 0,
                  Event.getFileAttributes (rust_lib root)
                    (E.attributes (t.countP Event.isGetFileAttributes + 1) (rust_lib root))]
           ++ copy_events root (E.attributes (t.countP Event.isGetFileAttributes + 2) (src_dll root))
                (E.copyFile (t.countP Event.isCopyFile) (src_dll root) (dst_dll root))
           ++ [Event.cout "\n[Step 3/3] Compiling C++ Launcher...",
               Event.cout ("[Bundler] Running: " ++ cl_cmd root),
               Event.system (cl_cmd root) (E.system (t.countP Event.isSystem + 1) (cl_cmd root))]
           ++ (if E.system (t.countP Event.isSystem + 1) (cl_cmd root) ≠ 0 then
                [Event.cerr ("[Bundler] Command failed with exit code " ++
                    toString (E.system (t.countP Event.isSystem + 1) (cl_cmd root))),
                 Event.cerr "C++ Compilation failed."]
               else
                [Event.cout "\n===========================================",
                 Event.cout "Build SUCCESS!",
                 Event.cout ("Output: " ++ root ++ "\\Browser.exe"),
                 Event.cout "==========================================="]))) := by
  unfold build_from
  simp only [run_command_fst, run_command_snd, copy_dll_eq, dir_exists, file_exists, copy_events]
  by_cases hd : dir_attrs (E.attributes (t.countP Event.isGetFileAttributes) (root ++ "\\rusty_web_core")) = false
  · simp [hd]
  by_cases hb : E.system (t.countP Event.isSystem) build_cmd = 0
  swap
  · simp [hd, hb, List.countP_append, List.countP_cons, Event.isSystem]
  by_cases hf : file_attrs (E.attributes (t.countP Event.isGetFileAttributes + 1) (rust_lib root)) = false
  · simp [hd, hb, hf, List.countP_append, List.countP_cons, Event.isSystem, Event.isGetFileAttributes]
  by_cases hl : E.system (t.countP Event.isSystem + 1) (cl_cmd root) = 0 <;>
  by_cases hdl : file_attrs (E.attributes (t.countP Event.isGetFileAttributes + 2) (src_dll root)) = true <;>
  by_cases hc : E.copyFile (t.countP Event.isCopyFile) (src_dll root) (dst_dll root) = 0 <;>
    simp [hd, hb, hf, hl, hdl, hc, List.countP_append, List.countP_cons, Event.isSystem,
      Event.isGetFileAttributes, Event.isCopyFile]

theorem build_from_extends (E : Env) (t : Trace) (root : String) :
    ∃ rest, (build_from E t root).2 = t ++ rest := by
  rw [build_from_eq]
  split_ifs <;> simp only [List.append_assoc] <;> exact ⟨_, rfl⟩

/-- The four ways through root location at the start of `main`, with the
call numbers made explicit. -/
theorem locate_root_eq (E : Env) :
    locate_root E banner =
      (if dir_attrs (E.attributes 0 (dir_string (E.getcwd 0) ++ "\\rusty_web_core")) = true then
        (dir_string (E.getcwd 0),
         banner ++ [Event.getcwd (E.getcwd 0),
           Event.getFileAttributes (dir_string (E.getcwd 0) ++ "\\rusty_web_core")
             (E.attributes 0 (dir_string (E.getcwd 0) ++ "\\rusty_web_core"))])
      else if dir_attrs (E.attributes 1 (dir_string (E.getcwd 0) ++ "\\..\\rusty_web_core")) = false then
        (dir_string (E.getcwd 0),
         banner ++ [Event.getcwd (E.getcwd 0),
           Event.getFileAttributes (dir_string (E.getcwd 0) ++ "\\rusty_web_core")
             (E.attributes 0 (dir_string (E.getcwd 0) ++ "\\rusty_web_core")),
           Event.getFileAttributes (dir_string (E.getcwd 0) ++ "\\..\\rusty_web_core")
             (E.attributes 1 (dir_string (E.getcwd 0) ++ "\\..\\rusty_web_core"))])
      else if E.chdir 0 ".." ≠ 0 then
        (dir_string (E.getcwd 0),
         banner ++ [Event.getcwd (E.getcwd 0),
           Event.getFileAttributes (dir_string (E.getcwd 0) ++ "\\rusty_web_core")
             (E.attributes 0 (dir_string (E.getcwd 0) ++ "\\rusty_web_core")),
           Event.getFileAttributes (dir_string (E.getcwd 0) ++ "\\..\\rusty_web_core")
             (E.attributes 1 (dir_string (E.getcwd 0) ++ "\\..\\rusty_web_core")),
           Event.chdir ".." (E.chdir 0 "..")])
      else
        (dir_string (E.getcwd 1),
         banner ++ [Event.getcwd (E.getcwd 0),
           Event.getFileAttributes (dir_string (E.getcwd 0) ++ "\\rusty_web_core")
             (E.attributes 0 (dir_string (E.getcwd 0) ++ "\\rusty_web_core")),
           Event.getFileAttributes (dir_string (E.getcwd 0) ++ "\\..\\rusty_web_core")
             (E.attributes 1 (dir_string (E.getcwd 0) ++ "\\..\\rusty_web_core")),
           Event.chdir ".." 0,
           Event.getcwd (E.getcwd 1),
           Event.cout ("Changed working directory to root: " ++ dir_string (E.getcwd 1))])) := by
  unfold locate_root
  simp only [get_current_dir, dir_exists, banner]
  by_cases h0 : dir_attrs (E.attributes 0 (dir_string (E.getcwd 0) ++ "\\rusty_web_core")) = true
  · simp [h0, Event.isGetcwd, Event.isGetFileAttributes]
  by_cases h1 : dir_attrs (E.attributes 1 (dir_string (E.getcwd 0) ++ "\\..\\rusty_web_core")) = false
  · simp [h0, h1, Event.isGetcwd, Event.isGetFileAttributes]
  by_cases hc : E.chdir 0 ".." = 0 <;>
    simp [h0, h1, hc, Event.isGetcwd, Event.isGetFileAttributes, Event.isChdir]

/-- A marker check that gives `b` in every history gives `b` at every call
number. -/
theorem dir_attrs_of_dir_exists (E : Env) (path : String) (b : Bool)
    (h : ∀ t, (dir_exists E t path).1 = b) : ∀ k, dir_attrs (E.attributes k path) = b := by
  intro k
  have hk := h (List.replicate k (Event.getFileAttributes "" 0))
  simpa [dir_exists, List.countP_replicate, Event.isGetFileAttributes] using hk

theorem start_dir_eq (E : Env) : start_dir E = dir_string (E.getcwd 0) := by
  simp [start_dir, get_current_dir, banner, Event.isGetcwd]

theorem locate_root_countP_system (E : Env) :
    (locate_root E banner).2.countP Event.isSystem = 0 := by
  rw [locate_root_eq]
  split_ifs <;> simp [banner, Event.isSystem]

theorem locate_root_countP_copyFile (E : Env) :
    (locate_root E banner).2.countP Event.isCopyFile = 0 := by
  rw [locate_root_eq]
  split_ifs <;> simp [banner, Event.isCopyFile]

theorem locate_root_queries (E : Env) : root_queries E = 1 ∨ root_queries E = 2 := by
  unfold root_queries
  rw [locate_root_eq]
  split_ifs <;> simp [banner, Event.isGetFileAttributes]

/-- The run of `main` in terms of the results of its calls. -/
theorem main_eq (E : Env) :
    main E =
      (if marker_found E = false then
        (1, (locate_root E banner).2 ++
              [Event.getFileAttributes (final_root E ++ "\\rusty_web_core")
                  (E.attributes (root_queries E) (final_root E ++ "\\rusty_web_core")),
               Event.cerr "Error: Could not find 'rusty_web_core'. Make sure you run this from the project root or bundler directory."])
      else if build_status E ≠ 0 then
        (1, (locate_root E banner).2 ++
              [Event.getFileAttributes (final_root E ++ "\\rusty_web_core")
                  (E.attributes (root_queries E) (final_root E ++ "\\rusty_web_core")),
               Event.cout "\n[Step 1/3] Building Rust Core (Static Lib)...",
               Event.putenv "RUSTFLAGS=-C target-feature=+crt-static",
               Event.cout ("[Bundler] Running: " ++ build_cmd),
               Event.system build_cmd (build_status E),
               Event.cerr ("[Bundler] Command failed with exit code " ++ toString (build_status E))])
      else if artifact_found E = false then
        (1, (locate_root E banner).2 ++
              [Event.getFileAttributes (final_root E ++ "\\rusty_web_core")
                  (E.attributes (root_queries E) (final_root E ++ "\\rusty_web_core")),
               Event.cout "\n[Step 1/3] Building Rust Core (Static Lib)...",
               Event.putenv "RUSTFLAGS=-C target-feature=+crt-static",
               Event.cout ("[Bundler] Running: " ++ build_cmd),
               Event.system build_cmd 0,
               Event.getFileAttributes (rust_lib (final_root E))
                  (E.attributes (root_queries E + 1) (rust_lib (final_root E))),
               Event.cerr ("Error: " ++ rust_lib (final_root E) ++ " is missing. Build likely failed.")])
      else
        (if link_status E ≠ 0 then 1 else 0,
         (locate_root E banner).2 ++
              [Event.getFileAttributes (final_root E ++ "\\rusty_web_core")
                  (E.attributes (root_queries E) (final_root E ++ "\\rusty_web_core")),
               Event.cout "\n[Step 1/3] Building Rust Core (Static Lib)...",
               Event.putenv "RUSTFLAGS=-C target-feature=+crt-static",
               Event.cout ("[Bundler] Running: " ++ build_cmd),
               Event.system build_cmd 0,
               Event.getFileAttributes (rust_lib (final_root E))
                  (E.attributes (root_queries E + 1) (rust_lib (final_root E)))]
           ++ copy_events (final_root E)
                (E.attributes (root_queries E + 2) (src_dll (final_root E))) (copy_result E)
           ++ [Event.cout "\n[Step 3/3] Compiling C++ Launcher...",
               Event.cout ("[Bundler] Running: " ++ cl_cmd (final_root E)),
               Event.system (cl_cmd (final_root E)) (link_status E)]
           ++ (if link_status E ≠ 0 then
                [Event.cerr ("[Bundler] Command failed with exit code " ++ toString (link_status E)),
                 Event.cerr "C++ Compilation failed."]
               else
                [Event.cout "\n===========================================",
                 Event.cout "Build SUCCESS!",
                 Event.cout ("Output: " ++ final_root E ++ "\\Browser.exe"),
                 Event.cout "==========================================="]))) := by
  unfold main
  simp only [build_from_eq, locate_root_countP_system, locate_root_countP_copyFile]
  rfl

/-- The exit status of `main` in terms of the results of its calls. -/
theorem exit_code_cases (E : Env) :
    (main E).1 =
      if marker_found E = true ∧ build_status E = 0 ∧ artifact_found E = true ∧
          link_status E = 0 then 0 else 1 := by
  rw [main_eq]
  by_cases hm : marker_found E = true
  · by_cases hb : build_status E = 0
    · by_cases ha : artifact_found E = true
      · by_cases hl : link_status E = 0 <;> simp [hm, hb, ha, hl]
      · simp [hm, hb, ha]
    · simp [hm, hb]
  · simp [hm]

/-! ## Auxiliary lemmas: the paths and command strings -/

theorem target_dir_eq (root : String) :
    target_dir root = root ++ "\\rusty_web_core\\target\\release" := rfl

theorem rust_lib_eq (root : String) :
    rust_lib root = root ++ "\\rusty_web_core\\target\\release\\rusty_web_core.lib" := by
  simp [rust_lib, target_dir, String.append_assoc]

theorem src_dll_eq (root : String) :
    src_dll root = root ++ "\\rusty_web_core\\target\\release\\WebView2Loader.dll" := by
  simp [src_dll, target_dir, dll_name, String.append_assoc]

theorem dst_dll_eq (root : String) : dst_dll root = root ++ "\\WebView2Loader.dll" := by
  simp [dst_dll, dll_name, String.append_assoc]

theorem cl_cmd_eq (root : String) :
    cl_cmd root =
      "cl /nologo /O2 /MT /EHsc packager\\main.cpp /Fe:Browser.exe /link /LIBPATH:\"" ++
        target_dir root ++
        "\" rusty_web_core.lib user32.lib shell32.lib ole32.lib oleaut32.lib advapi32.lib gdi32.lib shlwapi.lib dwmapi.lib uxtheme.lib bcrypt.lib imm32.lib ws2_32.lib crypt32.lib propsys.lib ntdll.lib" := by
  apply String.ext
  simp [cl_cmd, String.data_append]

theorem cl_cmd_ne_build_cmd (root : String) : cl_cmd root ≠ build_cmd := by
  intro h
  have := congrArg String.data h
  simp [cl_cmd, build_cmd] at this

theorem marker_ne_src_dll (a root : String) : a ++ "\\rusty_web_core" ≠ src_dll root := by
  intro h
  have := congrArg (fun s => s.data.getLast?) h
  simp [src_dll, dll_name] at this

theorem parent_marker_ne_src_dll (a root : String) :
    a ++ "\\..\\rusty_web_core" ≠ src_dll root := by
  intro h
  have := congrArg (fun s => s.data.getLast?) h
  simp [src_dll, dll_name] at this

theorem rust_lib_ne_src_dll (a root : String) : rust_lib a ≠ src_dll root := by
  intro h
  have := congrArg (fun s => s.data.getLast?) h
  simp [src_dll, dll_name, rust_lib] at this

/-! ## Auxiliary lemmas: the commands and copies of a run -/

theorem locate_root_filter_system (E : Env) :
    (locate_root E banner).2.filter Event.isSystem = [] := by
  rw [locate_root_eq]
  split_ifs <;> simp [banner, Event.isSystem]

theorem locate_root_filter_copyFile (E : Env) :
    (locate_root E banner).2.filter Event.isCopyFile = [] := by
  rw [locate_root_eq]
  split_ifs <;> simp [banner, Event.isCopyFile]

theorem copy_events_filter_system (root : String) (ad : Nat) (cp : Int) :
    (copy_events root ad cp).filter Event.isSystem = [] := by
  unfold copy_events
  split_ifs <;> simp [Event.isSystem]

theorem copy_events_filter_copyFile (root : String) (ad : Nat) (cp : Int) :
    (copy_events root ad cp).filter Event.isCopyFile =
      if file_attrs ad = true then [Event.copyFile (src_dll root) (dst_dll root) cp] else [] := by
  unfold copy_events
  split_ifs <;> simp [Event.isCopyFile]

/-- The `std::system` events of a run: the build command once the marker is
found, then the compile/link command once the artifact is verified. -/
theorem main_filter_system (E : Env) :
    (main E).2.filter Event.isSystem =
      if marker_found E = false then []
      else if build_status E ≠ 0 ∨ artifact_found E = false then
        [Event.system build_cmd (build_status E)]
      else
        [Event.system build_cmd (build_status E), Event.system (cl_cmd (final_root E)) (link_status E)] := by
  rw [main_eq]
  by_cases hm : marker_found E = true
  · by_cases hb : build_status E = 0
    · by_cases ha : artifact_found E = true
      · by_cases hl : link_status E = 0 <;>
          simp [hm, hb, ha, hl, List.filter_append, List.filter_cons, locate_root_filter_system,
            copy_events_filter_system, Event.isSystem]
      · simp [hm, hb, ha, List.filter_append, List.filter_cons, locate_root_filter_system,
          Event.isSystem]
    · simp [hm, hb, List.filter_append, List.filter_cons, locate_root_filter_system,
        Event.isSystem]
  · simp [hm, List.filter_append, List.filter_cons, locate_root_filter_system, Event.isSystem]

/-- The `CopyFileA` events of a run: one, when the copy stage is reached and
the optional dependency is found. -/
theorem main_filter_copyFile (E : Env) :
    (main E).2.filter Event.isCopyFile =
      if marker_found E = true ∧ build_status E = 0 ∧ artifact_found E = true ∧ dll_found E = true then
        [Event.copyFile (src_dll (final_root E)) (dst_dll (final_root E)) (copy_result E)]
      else [] := by
  rw [main_eq]
  by_cases hm : marker_found E = true
  · by_cases hb : build_status E = 0
    · by_cases ha : artifact_found E = true
      · by_cases hl : link_status E = 0 <;> by_cases hd : dll_found E = true <;>
          simp [hm, hb, ha, hl, hd, List.filter_append, List.filter_cons, locate_root_filter_copyFile,
            copy_events_filter_copyFile, Event.isCopyFile] <;>
          simp [dll_found] at hd <;> simp [hd]
      · simp [hm, hb, ha, List.filter_append, List.filter_cons, locate_root_filter_copyFile,
          Event.isCopyFile]
    · simp [hm, hb, List.filter_append, List.filter_cons, locate_root_filter_copyFile,
        Event.isCopyFile]
  · simp [hm, List.filter_append, List.filter_cons, locate_root_filter_copyFile, Event.isCopyFile]

/-! ## Auxiliary lemmas: the error stream -/

theorem cerr_lines_append (s t : Trace) : cerr_lines (s ++ t) = cerr_lines s ++ cerr_lines t := by
  induction s with
  | nil => rfl
  | cons e s ih => cases e <;> simp [cerr_lines, ih]

theorem cerr_lines_locate_root (E : Env) : cerr_lines (locate_root E banner).2 = [] := by
  rw [locate_root_eq]
  split_ifs <;> simp [banner, cerr_lines]

theorem msg_marker_ne_command (ret : Int) : msg_marker ≠ msg_command ret := by
  intro h
  have := congrArg String.data h
  simp [msg_marker, msg_command] at this

theorem msg_marker_ne_artifact (lib : String) : msg_marker ≠ msg_artifact lib := by
  intro h
  have := congrArg (fun s => s.data.reverse.take 2) h
  simp [msg_marker, msg_artifact] at this

theorem msg_command_ne_artifact (ret : Int) (lib : String) :
    msg_command ret ≠ msg_artifact lib := by
  intro h
  have := congrArg String.data h
  simp [msg_artifact, msg_command] at this

theorem msg_command_ne_compile (ret : Int) : msg_command ret ≠ msg_compile := by
  intro h
  have := congrArg String.data h
  simp [msg_compile, msg_command] at this

theorem msg_artifact_ne_compile (lib : String) : msg_artifact lib ≠ msg_compile := by
  intro h
  have := congrArg String.data h
  simp [msg_artifact, msg_compile] at this

theorem warning_ne_command (ret : Int) : "Warning: Failed to copy DLL." ≠ msg_command ret := by
  intro h
  have := congrArg String.data h
  simp [msg_command] at this

theorem warning_ne_artifact (lib : String) : "Warning: Failed to copy DLL." ≠ msg_artifact lib := by
  intro h
  have := congrArg String.data h
  simp [msg_artifact] at this

/-- The error stream of a run. -/
theorem cerr_lines_main (E : Env) :
    cerr_lines (main E).2 =
      if marker_found E = false then [msg_marker]
      else if build_status E ≠ 0 then [msg_command (build_status E)]
      else if artifact_found E = false then [msg_artifact (rust_lib (final_root E))]
      else
        (if dll_found E = true ∧ copy_result E = 0 then ["Warning: Failed to copy DLL."] else []) ++
          (if link_status E ≠ 0 then [msg_command (link_status E), msg_compile] else []) := by
  rw [main_eq]
  by_cases hm : marker_found E = false
  · simp [hm, cerr_lines_append, cerr_lines_locate_root, cerr_lines, msg_marker]
  by_cases hb : build_status E = 0
  swap
  · simp [hm, hb, cerr_lines_append, cerr_lines_locate_root, cerr_lines, msg_command]
  by_cases ha : artifact_found E = false
  · simp [hm, hb, ha, cerr_lines_append, cerr_lines_locate_root, cerr_lines, msg_artifact]
  by_cases hl : link_status E = 0 <;>
    by_cases hd : file_attrs (E.attributes (root_queries E + 2) (src_dll (final_root E))) = true <;>
    by_cases hc : copy_result E = 0 <;>
    simp [hm, hb, ha, hl, hd, hc, cerr_lines_append, cerr_lines_locate_root, cerr_lines,
      copy_events, msg_command, msg_compile, dll_found]

/-- The error stream of a failing run, stage by stage: the marker message;
the exit-code line of `run_command` alone for the build command; the artifact
message; and, after the optional copy warning, the exit-code line followed by
the compilation message for the compile/link command.  Two runs with the same
error stream stop at the same stage. -/
theorem failure_messages (E E' : Env) :
    (marker_found E = false →
      (main E).1 = 1 ∧ cerr_lines (main E).2 = [msg_marker]) ∧
    (marker_found E = true → build_status E ≠ 0 →
      (main E).1 = 1 ∧ cerr_lines (main E).2 = [msg_command (build_status E)]) ∧
    (marker_found E = true → build_status E = 0 → artifact_found E = false →
      (main E).1 = 1 ∧ cerr_lines (main E).2 = [msg_artifact (rust_lib (final_root E))]) ∧
    (marker_found E = true → build_status E = 0 → artifact_found E = true → link_status E ≠ 0 →
      (main E).1 = 1 ∧
      cerr_lines (main E).2 =
        (if dll_found E = true ∧ copy_result E = 0 then ["Warning: Failed to copy DLL."] else []) ++
          [msg_command (link_status E), msg_compile]) ∧
    (cerr_lines (main E).2 = cerr_lines (main E').2 → failed_stage E = failed_stage E') ∧
    (∀ (lib : String) (ret : Int),
      msg_marker ≠ msg_command ret ∧ msg_marker ≠ msg_artifact lib ∧ msg_marker ≠ msg_compile ∧
      msg_command ret ≠ msg_artifact lib ∧ msg_command ret ≠ msg_compile ∧
      msg_artifact lib ≠ msg_compile) := by
  have h1 : ¬(marker_found E = true ∧ build_status E = 0 ∧ artifact_found E = true ∧
      link_status E = 0) → (main E).1 = 1 := by
    intro hn
    rw [exit_code_cases]
    simp [hn]
  refine ⟨?_, ?_, ?_, ?_, ?_, ?_⟩
  · intro hm
    refine ⟨h1 (by simp [hm]), ?_⟩
    rw [cerr_lines_main]
    simp [hm]
  · intro hm hb
    refine ⟨h1 (by simp [hb]), ?_⟩
    rw [cerr_lines_main]
    simp [hm, hb]
  · intro hm hb ha
    refine ⟨h1 (by simp [ha]), ?_⟩
    rw [cerr_lines_main]
    simp [hm, hb, ha]
  · intro hm hb ha hl
    refine ⟨h1 (by simp [hl]), ?_⟩
    rw [cerr_lines_main]
    simp [hm, hb, ha, hl]
  · rw [cerr_lines_main, cerr_lines_main]
    unfold failed_stage
    have a1 := msg_marker_ne_command
    have a2 := msg_marker_ne_artifact
    have a3 := msg_command_ne_artifact
    have a4 := warning_ne_command
    have a5 := warning_ne_artifact
    have a6 : "Warning: Failed to copy DLL." ≠ msg_marker := by decide
    split_ifs <;> simp [a1, a2, a3, a4, a5, a6, Ne.symm (a1 _), Ne.symm (a2 _), Ne.symm (a3 _ _),
      Ne.symm (a4 _), Ne.symm (a5 _), Ne.symm a6]
  · intro lib ret
    exact ⟨msg_marker_ne_command ret, msg_marker_ne_artifact lib, by decide,
      msg_command_ne_artifact ret lib, msg_command_ne_compile ret, msg_artifact_ne_compile lib⟩

theorem src_dll_dir (root : String) :
    src_dll root = target_dir root ++ "\\WebView2Loader.dll" := by
  simp [src_dll, dll_name, String.append_assoc]

theorem copy_events_no_system (root : String) (ad : Nat) (cp : Int) (c : String) (r : Int) :
    Event.system c r ∉ copy_events root ad cp := by
  unfold copy_events
  by_cases h : file_attrs ad = true <;> by_cases hc : cp = 0 <;> simp [h, hc]

/-- The events `build_from` appends and its exit status, with the call
numbers made explicit. -/
theorem build_from_events (E : Env) (t : Trace) (root : String) :
    ∃ rest, (build_from E t root).2 = t ++ rest ∧
      (build_from E t root).1 =
        (if dir_attrs (E.attributes (t.countP Event.isGetFileAttributes) (root ++ "\\rusty_web_core")) = true ∧
            E.system (t.countP Event.isSystem) build_cmd = 0 ∧
            file_attrs (E.attributes (t.countP Event.isGetFileAttributes + 1) (rust_lib root)) = true ∧
            E.system (t.countP Event.isSystem + 1) (cl_cmd root) = 0 then 0 else 1) ∧
      rest =
        Event.getFileAttributes (root ++ "\\rusty_web_core")
            (E.attributes (t.countP Event.isGetFileAttributes) (root ++ "\\rusty_web_core")) ::
        (if dir_attrs (E.attributes (t.countP Event.isGetFileAttributes) (root ++ "\\rusty_web_core")) = false then
          [Event.cerr "Error: Could not find 'rusty_web_core'. Make sure you run this from the project root or bundler directory."]
        else
          Event.cout "\n[Step 1/3] Building Rust Core (Static Lib)..." ::
          Event.putenv "RUSTFLAGS=-C target-feature=+crt-static" ::
          Event.cout ("[Bundler] Running: " ++ build_cmd) ::
          Event.system build_cmd (E.system (t.countP Event.isSystem) build_cmd) ::
          (if E.system (t.countP Event.isSystem) build_cmd ≠ 0 then
            [Event.cerr ("[Bundler] Command failed with exit code " ++
              toString (E.system (t.countP Event.isSystem) build_cmd))]
          else
            Event.getFileAttributes (rust_lib root)
              (E.attributes (t.countP Event.isGetFileAttributes + 1) (rust_lib root)) ::
            (if file_attrs (E.attributes (t.countP Event.isGetFileAttributes + 1) (rust_lib root)) = false then
              [Event.cerr ("Error: " ++ rust_lib root ++ " is missing. Build likely failed.")]
            else
              copy_events root (E.attributes (t.countP Event.isGetFileAttributes + 2) (src_dll root))
                  (E.copyFile (t.countP Event.isCopyFile) (src_dll root) (dst_dll root)) ++
                (Event.cout "\n[Step 3/3] Compiling C++ Launcher..." ::
                 Event.cout ("[Bundler] Running: " ++ cl_cmd root) ::
                 Event.system (cl_cmd root) (E.system (t.countP Event.isSystem + 1) (cl_cmd root)) ::
                 (if E.system (t.countP Event.isSystem + 1) (cl_cmd root) ≠ 0 then
                    [Event.cerr ("[Bundler] Command failed with exit code " ++
                        toString (E.system (t.countP Event.isSystem + 1) (cl_cmd root))),
                     Event.cerr "C++ Compilation failed."]
                  else
                    [Event.cout "\n===========================================",
                     Event.cout "Build SUCCESS!",
                     Event.cout ("Output: " ++ root ++ "\\Browser.exe"),
                     Event.cout "==========================================="]))))) := by
  rw [build_from_eq]
  by_cases hd : dir_attrs (E.attributes (t.countP Event.isGetFileAttributes) (root ++ "\\rusty_web_core")) = true
  swap
  · exact ⟨_, by simp [hd], by simp [hd], rfl⟩
  by_cases hb : E.system (t.countP Event.isSystem) build_cmd = 0
  swap
  · exact ⟨_, by simp [hd, hb], by simp [hd, hb], rfl⟩
  by_cases hf : file_attrs (E.attributes (t.countP Event.isGetFileAttributes + 1) (rust_lib root)) = true
  swap
  · exact ⟨_, by simp [hd, hb, hf], by simp [hd, hb, hf], rfl⟩
  by_cases hl : E.system (t.countP Event.isSystem + 1) (cl_cmd root) = 0
  · exact ⟨_, by simp [hd, hb, hf, hl], by simp [hd, hb, hf, hl], rfl⟩
  · exact ⟨_, by simp [hd, hb, hf, hl], by simp [hd, hb, hf, hl], rfl⟩

/-! ## The claims -/

/-- C1: for every environment, `main` returns 0 exactly when the marker
directory is found under the final root path, the library-build command
returns 0, the artifact file `<root>\rusty_web_core\target\release\rusty_web_core.lib`
exists and the compile/link command returns 0; in every other case it
returns 1. -/
theorem main_exit_code (E : Env) :
    ((main E).1 = 0 ↔
      marker_found E = true ∧ build_status E = 0 ∧ artifact_found E = true ∧ link_status E = 0) ∧
    ((main E).1 = 0 ∨ (main E).1 = 1) ∧
    artifact_found E =
      file_attrs (E.attributes (root_queries E + 1)
        (final_root E ++ "\\rusty_web_core\\target\\release\\rusty_web_core.lib")) := by
  refine ⟨?_, ?_, ?_⟩
  · rw [exit_code_cases]
    by_cases h : marker_found E = true ∧ build_status E = 0 ∧ artifact_found E = true ∧
        link_status E = 0
    · simp [h]
    · simp [h]
  · rw [exit_code_cases]
    split_ifs
    · exact Or.inl rfl
    · exact Or.inr rfl
  · rw [artifact_found, rust_lib_eq]

/-- C2: when `dir_exists` is false for `<cwd>\rusty_web_core` and for
`<cwd>\..\rusty_web_core` (whenever it is asked), `main` exits with status 1
after the three marker checks and the error message, and the trace holds no
`std::system` call: `run_command` was never called. -/
theorem marker_absent_exit (E : Env)
    (hcur : ∀ t, (dir_exists E t (start_dir E ++ "\\rusty_web_core")).1 = false)
    (hpar : ∀ t, (dir_exists E t (start_dir E ++ "\\..\\rusty_web_core")).1 = false) :
    main E =
      (1, banner ++
        [Event.getcwd (E.getcwd 0),
         Event.getFileAttributes (start_dir E ++ "\\rusty_web_core")
           (E.attributes 0 (start_dir E ++ "\\rusty_web_core")),
         Event.getFileAttributes (start_dir E ++ "\\..\\rusty_web_core")
           (E.attributes 1 (start_dir E ++ "\\..\\rusty_web_core")),
         Event.getFileAttributes (start_dir E ++ "\\rusty_web_core")
           (E.attributes 2 (start_dir E ++ "\\rusty_web_core")),
         Event.cerr "Error: Could not find 'rusty_web_core'. Make sure you run this from the project root or bundler directory."]) ∧
    (main E).2.filter Event.isSystem = [] ∧
    (∀ cmd, Event.cout ("[Bundler] Running: " ++ cmd) ∉ (main E).2) := by
  have hs : start_dir E = dir_string (E.getcwd 0) := by
    simp [start_dir, get_current_dir, banner, Event.isGetcwd]
  have hcur := dir_attrs_of_dir_exists E _ _ hcur
  have hpar := dir_attrs_of_dir_exists E _ _ hpar
  rw [hs] at hcur hpar
  have hmain : main E =
      (1, banner ++
        [Event.getcwd (E.getcwd 0),
         Event.getFileAttributes (start_dir E ++ "\\rusty_web_core")
           (E.attributes 0 (start_dir E ++ "\\rusty_web_core")),
         Event.getFileAttributes (start_dir E ++ "\\..\\rusty_web_core")
           (E.attributes 1 (start_dir E ++ "\\..\\rusty_web_core")),
         Event.getFileAttributes (start_dir E ++ "\\rusty_web_core")
           (E.attributes 2 (start_dir E ++ "\\rusty_web_core")),
         Event.cerr "Error: Could not find 'rusty_web_core'. Make sure you run this from the project root or bundler directory."]) := by
    unfold main
    rw [build_from_eq, locate_root_eq, hs]
    simp [hcur, hpar, banner, Event.isGetFileAttributes]
  refine ⟨hmain, ?_, ?_⟩
  · rw [hmain]
    simp [banner, Event.isSystem]
  · intro cmd
    rw [hmain]
    simp [banner]
    refine ⟨?_, ?_, ?_⟩ <;> intro h <;> have := congrArg String.data h <;> simp at this

/-- C2, at a concrete environment: with no marker directory anywhere the run
ends with status 1 and no command. -/
theorem marker_absent_exit_witness :
    (main env_no_marker).1 = 1 ∧ (main env_no_marker).2.filter Event.isSystem = [] :=
  have h := marker_absent_exit env_no_marker
    (by intro t; simp [dir_exists, Env.attributes, env_no_marker, dir_attrs, INVALID_FILE_ATTRIBUTES])
    (by intro t; simp [dir_exists, Env.attributes, env_no_marker, dir_attrs, INVALID_FILE_ATTRIBUTES])
  ⟨by rw [h.1], h.2.1⟩

/-- C3, as stated, fails: in `env_chdir_fails` the marker directory exists
only under the parent directory, yet the working directory is never changed
(the one `_chdir("..")` call returns -1, no successful call is in the trace)
and the root path stays the start directory. -/
theorem chdir_failure_counterexample :
    (∀ t, (dir_exists env_chdir_fails t
        (start_dir env_chdir_fails ++ "\\rusty_web_core")).1 = false) ∧
    (∀ t, (dir_exists env_chdir_fails t
        (start_dir env_chdir_fails ++ "\\..\\rusty_web_core")).1 = true) ∧
    main env_chdir_fails =
      (1, banner ++
        [Event.getcwd (some "C:\\work\\bundler"),
         Event.getFileAttributes "C:\\work\\bundler\\rusty_web_core" 0xFFFFFFFF,
         Event.getFileAttributes "C:\\work\\bundler\\..\\rusty_web_core" 0x10,
         Event.chdir ".." (-1),
         Event.getFileAttributes "C:\\work\\bundler\\rusty_web_core" 0xFFFFFFFF,
         Event.cerr "Error: Could not find 'rusty_web_core'. Make sure you run this from the project root or bundler directory."]) ∧
    Event.chdir ".." 0 ∉ (main env_chdir_fails).2 ∧
    final_root env_chdir_fails = start_dir env_chdir_fails := by
  have hm : main env_chdir_fails =
      (1, banner ++
        [Event.getcwd (some "C:\\work\\bundler"),
         Event.getFileAttributes "C:\\work\\bundler\\rusty_web_core" 0xFFFFFFFF,
         Event.getFileAttributes "C:\\work\\bundler\\..\\rusty_web_core" 0x10,
         Event.chdir ".." (-1),
         Event.getFileAttributes "C:\\work\\bundler\\rusty_web_core" 0xFFFFFFFF,
         Event.cerr "Error: Could not find 'rusty_web_core'. Make sure you run this from the project root or bundler directory."]) := by
    decide
  have hs : start_dir env_chdir_fails = "C:\\work\\bundler" := by decide
  refine ⟨?_, ?_, hm, ?_, ?_⟩
  · intro t
    rw [hs]
    simp [dir_exists, Env.attributes, env_chdir_fails, env_in_bundler, dir_attrs,
      INVALID_FILE_ATTRIBUTES]
  · intro t
    rw [hs]
    simp [dir_exists, Env.attributes, env_chdir_fails, env_in_bundler, dir_attrs,
      INVALID_FILE_ATTRIBUTES, FILE_ATTRIBUTE_DIRECTORY]
  · rw [hm]
    decide
  · decide

/-- C3, amended: when the marker directory is missing under the start
directory and present under its parent, `_chdir("..")` is attempted right
after the two marker checks, before anything else `main` does.  When the call
returns 0 the root path is re-read before any further step; when it fails the
root path stays the start directory and `main` only repeats the marker check,
reports the error and exits 1: no environment variable is set, no command
run, no artifact checked or copied. -/
theorem parent_marker_chdir (E : Env)
    (hcur : ∀ t, (dir_exists E t (start_dir E ++ "\\rusty_web_core")).1 = false)
    (hpar : ∀ t, (dir_exists E t (start_dir E ++ "\\..\\rusty_web_core")).1 = true) :
    ∃ rest,
      (main E).2 =
        banner ++
          [Event.getcwd (E.getcwd 0),
           Event.getFileAttributes (start_dir E ++ "\\rusty_web_core")
             (E.attributes 0 (start_dir E ++ "\\rusty_web_core")),
           Event.getFileAttributes (start_dir E ++ "\\..\\rusty_web_core")
             (E.attributes 1 (start_dir E ++ "\\..\\rusty_web_core")),
           Event.chdir ".." (E.chdir 0 "..")] ++ rest ∧
      (E.chdir 0 ".." = 0 →
        final_root E = dir_string (E.getcwd 1) ∧
        ∃ more, rest =
          [Event.getcwd (E.getcwd 1),
           Event.cout ("Changed working directory to root: " ++ dir_string (E.getcwd 1))] ++ more) ∧
      (E.chdir 0 ".." ≠ 0 →
        final_root E = start_dir E ∧
        (main E).1 = 1 ∧
        rest =
          [Event.getFileAttributes (start_dir E ++ "\\rusty_web_core")
             (E.attributes 2 (start_dir E ++ "\\rusty_web_core")),
           Event.cerr "Error: Could not find 'rusty_web_core'. Make sure you run this from the project root or bundler directory."]) := by
  have hcur := dir_attrs_of_dir_exists E _ _ hcur
  have hpar := dir_attrs_of_dir_exists E _ _ hpar
  rw [start_dir_eq] at hcur hpar ⊢
  by_cases hc : E.chdir 0 ".." = 0
  · have hl : locate_root E banner =
        (dir_string (E.getcwd 1),
         banner ++ [Event.getcwd (E.getcwd 0),
           Event.getFileAttributes (dir_string (E.getcwd 0) ++ "\\rusty_web_core")
             (E.attributes 0 (dir_string (E.getcwd 0) ++ "\\rusty_web_core")),
           Event.getFileAttributes (dir_string (E.getcwd 0) ++ "\\..\\rusty_web_core")
             (E.attributes 1 (dir_string (E.getcwd 0) ++ "\\..\\rusty_web_core")),
           Event.chdir ".." 0,
           Event.getcwd (E.getcwd 1),
           Event.cout ("Changed working directory to root: " ++ dir_string (E.getcwd 1))]) := by
      rw [locate_root_eq]
      simp [hcur, hpar, hc]
    obtain ⟨more, hmore⟩ := build_from_extends E (locate_root E banner).2 (locate_root E banner).1
    refine ⟨[Event.getcwd (E.getcwd 1),
           Event.cout ("Changed working directory to root: " ++ dir_string (E.getcwd 1))] ++ more,
      ?_, ?_, ?_⟩
    · unfold main
      simp only []
      rw [hmore, hl, hc]
      simp
    · intro _
      exact ⟨by rw [final_root, hl], more, rfl⟩
    · intro h
      exact absurd hc h
  · have hl : locate_root E banner =
        (dir_string (E.getcwd 0),
         banner ++ [Event.getcwd (E.getcwd 0),
           Event.getFileAttributes (dir_string (E.getcwd 0) ++ "\\rusty_web_core")
             (E.attributes 0 (dir_string (E.getcwd 0) ++ "\\rusty_web_core")),
           Event.getFileAttributes (dir_string (E.getcwd 0) ++ "\\..\\rusty_web_core")
             (E.attributes 1 (dir_string (E.getcwd 0) ++ "\\..\\rusty_web_core")),
           Event.chdir ".." (E.chdir 0 "..")]) := by
      rw [locate_root_eq]
      simp [hcur, hpar, hc]
    have hm : main E = (1, (locate_root E banner).2 ++
          [Event.getFileAttributes (dir_string (E.getcwd 0) ++ "\\rusty_web_core")
             (E.attributes 2 (dir_string (E.getcwd 0) ++ "\\rusty_web_core")),
           Event.cerr "Error: Could not find 'rusty_web_core'. Make sure you run this from the project root or bundler directory."]) := by
      unfold main
      rw [build_from_eq, hl]
      simp [hcur, banner, Event.isGetFileAttributes]
    refine ⟨[Event.getFileAttributes (dir_string (E.getcwd 0) ++ "\\rusty_web_core")
             (E.attributes 2 (dir_string (E.getcwd 0) ++ "\\rusty_web_core")),
           Event.cerr "Error: Could not find 'rusty_web_core'. Make sure you run this from the project root or bundler directory."],
      ?_, ?_, ?_⟩
    · rw [hm, hl]
    · intro h
      exact absurd h hc
    · intro _
      exact ⟨by rw [final_root, hl], by rw [hm], rfl⟩

/-- C3 amended, at a concrete environment: started in `C:\work\bundler`, the
run changes to the parent before anything else and works from `C:\work`. -/
theorem parent_marker_chdir_witness :
    ∃ rest,
      (main env_in_bundler).2 =
        banner ++
          [Event.getcwd (env_in_bundler.getcwd 0),
           Event.getFileAttributes (start_dir env_in_bundler ++ "\\rusty_web_core")
             (env_in_bundler.attributes 0 (start_dir env_in_bundler ++ "\\rusty_web_core")),
           Event.getFileAttributes (start_dir env_in_bundler ++ "\\..\\rusty_web_core")
             (env_in_bundler.attributes 1 (start_dir env_in_bundler ++ "\\..\\rusty_web_core")),
           Event.chdir ".." (env_in_bundler.chdir 0 "..")] ++ rest ∧
      final_root env_in_bundler = "C:\\work" :=
  have hs : start_dir env_in_bundler = "C:\\work\\bundler" := by decide
  have h := parent_marker_chdir env_in_bundler
    (by intro t; rw [hs]; simp [dir_exists, Env.attributes, env_in_bundler, dir_attrs,
          INVALID_FILE_ATTRIBUTES])
    (by intro t; rw [hs]; simp [dir_exists, Env.attributes, env_in_bundler, dir_attrs,
          INVALID_FILE_ATTRIBUTES, FILE_ATTRIBUTE_DIRECTORY])
  h.imp fun _ hr => ⟨hr.1, (hr.2.1 rfl).1⟩

/-- C4: the compile/link command is invoked only after the library-build
command returned 0 and the artifact check passed.  When the build command
exits non-zero, or exits zero while the artifact file is absent, `main` exits
1, no copy is attempted, and the only command the run can hold is the build
command: the compile/link command is never invoked. -/
theorem build_failure_stops (E : Env)
    (h : build_status E ≠ 0 ∨ artifact_found E = false) :
    (main E).1 = 1 ∧
    (main E).2.filter Event.isCopyFile = [] ∧
    (∀ e ∈ (main E).2, e.isSystem = true → e = Event.system build_cmd (build_status E)) ∧
    (∀ r, Event.system (cl_cmd (final_root E)) r ∉ (main E).2) := by
  have hsys : ∀ e ∈ (main E).2, e.isSystem = true → e = Event.system build_cmd (build_status E) := by
    intro e he hs
    have hmem : e ∈ (main E).2.filter Event.isSystem := List.mem_filter.mpr ⟨he, hs⟩
    rw [main_filter_system] at hmem
    by_cases hm : marker_found E = false
    · simp [hm] at hmem
    · simpa [hm, h] using hmem
  refine ⟨?_, ?_, hsys, ?_⟩
  · rw [exit_code_cases]
    rcases h with h | h <;> simp [h]
  · rw [main_filter_copyFile]
    rcases h with h | h
    · simp [h]
    · simp [h]
  · intro r hr
    have := hsys _ hr rfl
    simp only [Event.system.injEq] at this
    exact cl_cmd_ne_build_cmd _ this.1

/-- C4, at a concrete environment: a build command that exits 0 without
writing the library ends the run with status 1 after one command. -/
theorem build_failure_stops_witness :
    (main env_build_noop).1 = 1 ∧
    (main env_build_noop).2.filter Event.isCopyFile = [] ∧
    (main env_build_noop).2.filter Event.isSystem = [Event.system build_cmd 0] :=
  have h := build_failure_stops env_build_noop (Or.inr (by decide))
  ⟨h.1, h.2.1, by decide⟩

/-- C5: the optional dependency never blocks progress.  Two environments
that agree on everything except the attributes of `WebView2Loader.dll` in the
release directory and the result of the copy call give the same exit code and
the same sequence of commands with the same results.  And whenever the copy
is attempted and fails, the warning is written to the error stream, the
compile/link command is still invoked, and `main` exits 0 if it succeeds. -/
theorem optional_copy_never_blocks (E1 E2 : Env)
    (hcwd : E1.getcwd = E2.getcwd) (hchdir : E1.chdir = E2.chdir)
    (hsys : E1.system = E2.system)
    (hattr : ∀ k p, p ≠ src_dll (final_root E1) →
      E1.getFileAttributes k p = E2.getFileAttributes k p) :
    (main E1).1 = (main E2).1 ∧
    (main E1).2.filter Event.isSystem = (main E2).2.filter Event.isSystem ∧
    (Event.copyFile (src_dll (final_root E1)) (dst_dll (final_root E1)) 0 ∈ (main E1).2 →
      Event.cerr "Warning: Failed to copy DLL." ∈ (main E1).2 ∧
      Event.system (cl_cmd (final_root E1)) (link_status E1) ∈ (main E1).2 ∧
      (link_status E1 = 0 → (main E1).1 = 0)) := by
  have hA : ∀ k p, p ≠ src_dll (final_root E1) → E1.attributes k p = E2.attributes k p := by
    intro k p hp
    simp [Env.attributes, hattr k p hp]
  have hloc : locate_root E1 banner = locate_root E2 banner := by
    rw [locate_root_eq, locate_root_eq]
    simp only [hA _ _ (marker_ne_src_dll _ _), hA _ _ (parent_marker_ne_src_dll _ _), hcwd, hchdir]
  have hroot : final_root E1 = final_root E2 := by simp [final_root, hloc]
  have hq : root_queries E1 = root_queries E2 := by simp [root_queries, hloc]
  have hm : marker_found E1 = marker_found E2 := by
    simp only [marker_found, dir_exists, ← hroot, ← hloc, hA _ _ (marker_ne_src_dll _ _)]
  have hb : build_status E1 = build_status E2 := by simp [build_status, hsys]
  have ha : artifact_found E1 = artifact_found E2 := by
    simp only [artifact_found, ← hroot, ← hq, hA _ _ (rust_lib_ne_src_dll _ _)]
  have hl : link_status E1 = link_status E2 := by simp [link_status, hsys, hroot]
  refine ⟨?_, ?_, ?_⟩
  · rw [exit_code_cases, exit_code_cases, hm, hb, ha, hl]
  · rw [main_filter_system, main_filter_system, hm, hb, ha, hl, hroot]
  · intro hc
    have hmem : Event.copyFile (src_dll (final_root E1)) (dst_dll (final_root E1)) 0 ∈
        (main E1).2.filter Event.isCopyFile := List.mem_filter.mpr ⟨hc, rfl⟩
    rw [main_filter_copyFile] at hmem
    by_cases hcond : marker_found E1 = true ∧ build_status E1 = 0 ∧ artifact_found E1 = true ∧
        dll_found E1 = true
    · rw [if_pos hcond] at hmem
      have hcp : copy_result E1 = 0 := by
        simp only [List.mem_singleton, Event.copyFile.injEq, true_and] at hmem
        exact hmem.symm
      obtain ⟨c1, c2, c3, c4⟩ := hcond
      have hd : file_attrs (E1.attributes (root_queries E1 + 2) (src_dll (final_root E1))) = true := c4
      rw [main_eq]
      by_cases hl0 : link_status E1 = 0 <;>
        simp [c1, c2, c3, hd, hcp, hl0, copy_events]
    · rw [if_neg hcond] at hmem
      simp at hmem

/-- C5, at concrete environments: with the dependency present and the copy
failing the run ends as it does without the dependency, with status 0. -/
theorem optional_copy_never_blocks_witness :
    (main env_copy_fails).1 = (main env_at_root).1 ∧
    (main env_copy_fails).2.filter Event.isSystem = (main env_at_root).2.filter Event.isSystem ∧
    Event.cerr "Warning: Failed to copy DLL." ∈ (main env_copy_fails).2 ∧
    (main env_copy_fails).1 = 0 :=
  have hr : final_root env_copy_fails = "C:\\work" := by decide
  have h := optional_copy_never_blocks env_copy_fails env_at_root rfl rfl rfl
    (by
      intro k p hp
      rw [hr] at hp
      have hp' : p ≠ "C:\\work\\rusty_web_core\\target\\release\\WebView2Loader.dll" := by
        intro he
        exact hp (by rw [he]; decide)
      simp [env_copy_fails, hp'])
  ⟨h.1, h.2.1, (h.2.2 (by decide)).1, (h.2.2 (by decide)).2.2 (by decide)⟩

/-- C6: in every run that reaches the copy stage, the attributes of
`<root>\rusty_web_core\target\release\WebView2Loader.dll` are queried, and
the copy from that path to `<root>\WebView2Loader.dll` is attempted (once)
exactly when `file_exists` holds of them.  When the file is absent no copy is
performed, the compile/link command is invoked, and `main` exits 0 if that
command succeeds. -/
theorem copy_only_if_present (E : Env)
    (hm : marker_found E = true) (hb : build_status E = 0) (ha : artifact_found E = true) :
    Event.getFileAttributes (final_root E ++ "\\rusty_web_core\\target\\release\\WebView2Loader.dll")
        (E.attributes (root_queries E + 2) (src_dll (final_root E))) ∈ (main E).2 ∧
    (main E).2.filter Event.isCopyFile =
      (if dll_found E = true then
        [Event.copyFile (final_root E ++ "\\rusty_web_core\\target\\release\\WebView2Loader.dll")
          (final_root E ++ "\\WebView2Loader.dll") (copy_result E)]
       else []) ∧
    (dll_found E = false →
      (main E).2.filter Event.isCopyFile = [] ∧
      Event.system (cl_cmd (final_root E)) (link_status E) ∈ (main E).2 ∧
      (link_status E = 0 → (main E).1 = 0)) := by
  refine ⟨?_, ?_, ?_⟩
  · rw [main_eq, ← src_dll_eq]
    by_cases hl0 : link_status E = 0 <;> simp [hm, hb, ha, hl0, copy_events]
  · rw [main_filter_copyFile, ← src_dll_eq, ← dst_dll_eq]
    simp [hm, hb, ha]
  · intro hd
    refine ⟨?_, ?_, ?_⟩
    · rw [main_filter_copyFile]
      simp [hd]
    · rw [main_eq]
      by_cases hl0 : link_status E = 0 <;> simp [hm, hb, ha, hl0]
    · intro hl0
      rw [exit_code_cases]
      simp [hm, hb, ha, hl0]

/-- C6, at a concrete environment: without the optional dependency the run
copies nothing and exits 0. -/
theorem copy_only_if_present_witness :
    (main env_at_root).2.filter Event.isCopyFile = [] ∧ (main env_at_root).1 = 0 :=
  have h := copy_only_if_present env_at_root (by decide) (by decide) (by decide)
  ⟨(h.2.2 (by decide)).1, (h.2.2 (by decide)).2.2 (by decide)⟩

/-- C7: for every path, with `attrs` the 32-bit attribute word read for it:
when `attrs` is `INVALID_FILE_ATTRIBUTES` both `dir_exists` and `file_exists`
are false; otherwise exactly one of them is true, `dir_exists` exactly when
the `FILE_ATTRIBUTE_DIRECTORY` bit is set.  Both are total functions into
`Bool`: no error is raised. -/
theorem existence_checks (E : Env) (t : Trace) (path : String) :
    E.attributes (t.countP Event.isGetFileAttributes) path < 2 ^ 32 ∧
    (E.attributes (t.countP Event.isGetFileAttributes) path = 0xFFFFFFFF →
      (dir_exists E t path).1 = false ∧ (file_exists E t path).1 = false) ∧
    (E.attributes (t.countP Event.isGetFileAttributes) path ≠ 0xFFFFFFFF →
      ((dir_exists E t path).1 = true ↔
        E.attributes (t.countP Event.isGetFileAttributes) path &&& 0x10 ≠ 0) ∧
      ((file_exists E t path).1 = true ↔
        E.attributes (t.countP Event.isGetFileAttributes) path &&& 0x10 = 0) ∧
      (dir_exists E t path).1 = !(file_exists E t path).1) := by
  refine ⟨?_, ?_, ?_⟩
  · exact Nat.mod_lt _ (by norm_num)
  · intro h
    simp [dir_exists, file_exists, dir_attrs, file_attrs, INVALID_FILE_ATTRIBUTES, h]
  · intro h
    simp [dir_exists, file_exists, dir_attrs, file_attrs, INVALID_FILE_ATTRIBUTES,
      FILE_ATTRIBUTE_DIRECTORY, h]

/-- C8: `run_command` runs the command exactly once (the trace gains one
`std::system` event, for that command), returns true exactly when the exit
status is zero, logs the command to standard output before running it, and
writes the exit code to the error stream exactly when the status is non-zero. -/
theorem run_command_spec (E : Env) (t : Trace) (cmd : String) :
    ((run_command E t cmd).1 = true ↔ E.system (t.countP Event.isSystem) cmd = 0) ∧
    (run_command E t cmd).2 =
      t ++ [Event.cout ("[Bundler] Running: " ++ cmd),
            Event.system cmd (E.system (t.countP Event.isSystem) cmd)] ++
        (if E.system (t.countP Event.isSystem) cmd = 0 then []
         else [Event.cerr ("[Bundler] Command failed with exit code " ++
                toString (E.system (t.countP Event.isSystem) cmd))]) ∧
    ((run_command E t cmd).2.countP Event.isSystem = t.countP Event.isSystem + 1) := by
  refine ⟨?_, run_command_snd E t cmd, ?_⟩
  · simp [run_command_fst]
  · rw [run_command_snd]
    split_ifs <;> simp [List.countP_append, List.countP_cons, Event.isSystem]

/-- C9: at the failing input `env_build_fails` (the marker is found and the
library-build command exits with status 2) `main` exits 1 and its error
stream holds only the exit-code line of `run_command`: no message names the
build stage.  The compile/link failure in `env_link_fails` writes the very
same line and then its own `C++ Compilation failed.`, as the marker failure
(`env_no_marker`) and the artifact failure (`env_build_noop`) write theirs. -/
theorem build_failure_line_shared :
    failed_stage env_build_fails = some Stage.build ∧
    failed_stage env_link_fails = some Stage.link ∧
    (main env_build_fails).1 = 1 ∧
    cerr_lines (main env_build_fails).2 = ["[Bundler] Command failed with exit code 2"] ∧
    cerr_lines (main env_link_fails).2 =
      ["[Bundler] Command failed with exit code 2", "C++ Compilation failed."] ∧
    (∀ m ∈ cerr_lines (main env_build_fails).2, m ∈ cerr_lines (main env_link_fails).2) ∧
    cerr_lines (main env_no_marker).2 =
      ["Error: Could not find 'rusty_web_core'. Make sure you run this from the project root or bundler directory."] ∧
    cerr_lines (main env_build_noop).2 =
      ["Error: C:\\work\\rusty_web_core\\target\\release\\rusty_web_core.lib is missing. Build likely failed."] := by
  have h1 : cerr_lines (main env_build_fails).2 = ["[Bundler] Command failed with exit code 2"] := by
    decide
  have h2 : cerr_lines (main env_link_fails).2 =
      ["[Bundler] Command failed with exit code 2", "C++ Compilation failed."] := by
    decide
  refine ⟨by decide, by decide, by decide, h1, h2, ?_, by decide, by decide⟩
  rw [h1, h2]
  decide

/-- C10: from the root path on, every path `main` builds is the root path
followed by a fixed suffix, and the linker searches the directory in which
the artifact was verified.  For every root path, with `dir` the release
directory `<root>\rusty_web_core\target\release` and `link` the compile/link
command whose `/LIBPATH` is `dir`:
* the events `main` appends after root location query only the marker, the
  artifact `dir\rusty_web_core.lib` and the dependency `dir\WebView2Loader.dll`,
  copy only from `dir\WebView2Loader.dll` to `<root>\WebView2Loader.dll`, and
  run only the build command and `link`;
* the marker is always queried; once it is found and the build command
  returns 0 the artifact `dir\rusty_web_core.lib` is queried; once that check
  passes the dependency is queried (and copied when present) and `link` is
  run, and when `link` returns 0 the exit status is 0 and the banner names
  `<root>\Browser.exe`;
* whenever `link` is run, a passing query of `dir\rusty_web_core.lib` stands
  before it in the trace. -/
theorem paths_under_root (E : Env) (t : Trace) (root : String) :
    main E = build_from E (locate_root E banner).2 (final_root E) ∧
    ∃ dir link rest,
      dir = root ++ "\\rusty_web_core\\target\\release" ∧
      link = "cl /nologo /O2 /MT /EHsc packager\\main.cpp /Fe:Browser.exe /link /LIBPATH:\"" ++
        dir ++
        "\" rusty_web_core.lib user32.lib shell32.lib ole32.lib oleaut32.lib advapi32.lib gdi32.lib shlwapi.lib dwmapi.lib uxtheme.lib bcrypt.lib imm32.lib ws2_32.lib crypt32.lib propsys.lib ntdll.lib" ∧
      dir ++ "\\rusty_web_core.lib" = root ++ "\\rusty_web_core\\target\\release\\rusty_web_core.lib" ∧
      dir ++ "\\WebView2Loader.dll" = root ++ "\\rusty_web_core\\target\\release\\WebView2Loader.dll" ∧
      target_dir root = dir ∧ rust_lib root = dir ++ "\\rusty_web_core.lib" ∧ cl_cmd root = link ∧
      (build_from E t root).2 = t ++ rest ∧
      (∀ p a, Event.getFileAttributes p a ∈ rest →
        p = root ++ "\\rusty_web_core" ∨ p = dir ++ "\\rusty_web_core.lib" ∨
        p = dir ++ "\\WebView2Loader.dll") ∧
      (∀ s d r, Event.copyFile s d r ∈ rest →
        s = dir ++ "\\WebView2Loader.dll" ∧ d = root ++ "\\WebView2Loader.dll") ∧
      (∀ c r, Event.system c r ∈ rest → c = build_cmd ∨ c = link) ∧
      Event.getFileAttributes (root ++ "\\rusty_web_core")
        (E.attributes (t.countP Event.isGetFileAttributes) (root ++ "\\rusty_web_core")) ∈ rest ∧
      (dir_attrs (E.attributes (t.countP Event.isGetFileAttributes) (root ++ "\\rusty_web_core")) = true →
        E.system (t.countP Event.isSystem) build_cmd = 0 →
        Event.getFileAttributes (dir ++ "\\rusty_web_core.lib")
          (E.attributes (t.countP Event.isGetFileAttributes + 1) (dir ++ "\\rusty_web_core.lib")) ∈ rest ∧
        (file_attrs (E.attributes (t.countP Event.isGetFileAttributes + 1)
            (dir ++ "\\rusty_web_core.lib")) = true →
          Event.getFileAttributes (dir ++ "\\WebView2Loader.dll")
            (E.attributes (t.countP Event.isGetFileAttributes + 2) (dir ++ "\\WebView2Loader.dll")) ∈ rest ∧
          (file_attrs (E.attributes (t.countP Event.isGetFileAttributes + 2)
              (dir ++ "\\WebView2Loader.dll")) = true →
            Event.copyFile (dir ++ "\\WebView2Loader.dll") (root ++ "\\WebView2Loader.dll")
              (E.copyFile (t.countP Event.isCopyFile) (dir ++ "\\WebView2Loader.dll")
                (root ++ "\\WebView2Loader.dll")) ∈ rest) ∧
          Event.system link (E.system (t.countP Event.isSystem + 1) link) ∈ rest ∧
          (E.system (t.countP Event.isSystem + 1) link = 0 →
            (build_from E t root).1 = 0 ∧
            Event.cout ("Output: " ++ root ++ "\\Browser.exe") ∈ rest))) ∧
      (∀ r, Event.system link r ∈ rest →
        ∃ before after al,
          rest = before ++ Event.system link r :: after ∧
          Event.getFileAttributes (dir ++ "\\rusty_web_core.lib") al ∈ before ∧
          file_attrs al = true) ∧
      ((build_from E t root).1 = 0 →
        Event.cout ("Output: " ++ root ++ "\\Browser.exe") ∈ rest) := by
  refine ⟨rfl, root ++ "\\rusty_web_core\\target\\release",
    "cl /nologo /O2 /MT /EHsc packager\\main.cpp /Fe:Browser.exe /link /LIBPATH:\"" ++
        (root ++ "\\rusty_web_core\\target\\release") ++
        "\" rusty_web_core.lib user32.lib shell32.lib ole32.lib oleaut32.lib advapi32.lib gdi32.lib shlwapi.lib dwmapi.lib uxtheme.lib bcrypt.lib imm32.lib ws2_32.lib crypt32.lib propsys.lib ntdll.lib",
    ?_⟩
  obtain ⟨rest, hrest, hcode, hdef⟩ := build_from_events E t root
  refine ⟨rest, rfl, rfl, by simp [String.append_assoc], by simp [String.append_assoc], rfl, rfl,
    cl_cmd_eq root, hrest, ?_⟩
  rw [hcode]
  clear hrest hcode
  have hne := cl_cmd_ne_build_cmd root
  simp only [cl_cmd_eq, src_dll_dir, dst_dll_eq, rust_lib, target_dir] at hdef hne ⊢
  generalize E.attributes (t.countP Event.isGetFileAttributes) (root ++ "\\rusty_web_core") = a at *
  generalize E.system (t.countP Event.isSystem) build_cmd = b at *
  generalize E.attributes (t.countP Event.isGetFileAttributes + 1)
    (root ++ "\\rusty_web_core\\target\\release" ++ "\\rusty_web_core.lib") = al at *
  generalize E.attributes (t.countP Event.isGetFileAttributes + 2)
    (root ++ "\\rusty_web_core\\target\\release" ++ "\\WebView2Loader.dll") = ad at *
  generalize E.copyFile (t.countP Event.isCopyFile)
    (root ++ "\\rusty_web_core\\target\\release" ++ "\\WebView2Loader.dll")
    (root ++ "\\WebView2Loader.dll") = cp at *
  generalize "cl /nologo /O2 /MT /EHsc packager\\main.cpp /Fe:Browser.exe /link /LIBPATH:\"" ++
        (root ++ "\\rusty_web_core\\target\\release") ++
        "\" rusty_web_core.lib user32.lib shell32.lib ole32.lib oleaut32.lib advapi32.lib gdi32.lib shlwapi.lib dwmapi.lib uxtheme.lib bcrypt.lib imm32.lib ws2_32.lib crypt32.lib propsys.lib ntdll.lib" = link at *
  generalize E.system (t.countP Event.isSystem + 1) link = l at *
  subst hdef
  by_cases ha : dir_attrs a = true
  swap
  · simp [ha]
  by_cases hb : b = 0
  swap
  · simp [ha, hb, hne]
  by_cases hf : file_attrs al = true
  swap
  · simp [ha, hb, hf, hne]
    tauto
  have hce := copy_events_no_system root ad cp
  refine ⟨?_, ?_, ?_, ?_, ?_, ?_, ?_⟩
  · by_cases had : file_attrs ad = true <;> by_cases hcp : cp = 0 <;> by_cases hl : l = 0 <;>
      simp [ha, hb, hf, had, hcp, hl, copy_events, src_dll_dir, dst_dll_eq, target_dir] <;> tauto
  · by_cases had : file_attrs ad = true <;> by_cases hcp : cp = 0 <;> by_cases hl : l = 0 <;>
      simp [ha, hb, hf, had, hcp, hl, copy_events, src_dll_dir, dst_dll_eq, target_dir] <;>
      (try tauto)
  · by_cases hl : l = 0 <;> simp [ha, hb, hf, hl, hce] <;> tauto
  · simp
  · intro _ _
    by_cases had : file_attrs ad = true <;> by_cases hcp : cp = 0 <;> by_cases hl : l = 0 <;>
      simp [ha, hb, hf, had, hcp, hl, copy_events, src_dll_dir, dst_dll_eq, target_dir]
  · intro r hr
    have hrl : r = l := by
      by_cases hl : l = 0
      · subst hl
        simpa [ha, hb, hf, hce, hne] using hr
      · simpa [ha, hb, hf, hl, hce, hne] using hr
    subst hrl
    refine ⟨Event.getFileAttributes (root ++ "\\rusty_web_core") a ::
        Event.cout "\n[Step 1/3] Building Rust Core (Static Lib)..." ::
        Event.putenv "RUSTFLAGS=-C target-feature=+crt-static" ::
        Event.cout ("[Bundler] Running: " ++ build_cmd) ::
        Event.system build_cmd b ::
        Event.getFileAttributes
          (root ++ "\\rusty_web_core\\target\\release" ++ "\\rusty_web_core.lib") al ::
        (copy_events root ad cp ++
          [Event.cout "\n[Step 3/3] Compiling C++ Launcher...",
           Event.cout ("[Bundler] Running: " ++ link)]),
      (if r ≠ 0 then
        [Event.cerr ("[Bundler] Command failed with exit code " ++ toString r),
         Event.cerr "C++ Compilation failed."]
       else
        [Event.cout "\n===========================================",
         Event.cout "Build SUCCESS!",
         Event.cout ("Output: " ++ root ++ "\\Browser.exe"),
         Event.cout "==========================================="]), al, ?_, ?_, hf⟩
    · simp [ha, hb, hf]
    · simp
  · by_cases hl : l = 0 <;> simp [ha, hb, hf, hl]

end Bundler
